import Mathlib

/-
Shallow embedding of the pep-chess multiplayer server (mp-server/index.js).

The server keeps a map of game sessions; each session holds a chess.js
board handle, seat tokens, a draw-offer tracker, a two-sided countdown
clock, and an escrow ("pep") link.  The chess rules engine (chess.js) is
external: we model it as an abstract `Engine` record of the operations the
server calls (applyMove, isGameOver, isCheckmate, isStalemate,
isThreefoldRepetition, isInsufficientMaterial).  The outbound HTTP call to
the escrow backend is modelled by a `RemoteOutcome` parameter describing
whether the fetch succeeded, was rejected (`!r.ok`), or threw.

JavaScript truthiness on the stored option-valued strings (`!token`,
`!!game.pep.whiteAddress`, `if (game.pep.matchId)`) is modelled by
`strTruthy` / `tokenFalsy`: `null`/`undefined` and the empty string are
falsy, every other string truthy.  Timestamps and millisecond amounts are
`Int` (Date.now arithmetic).  Every game in the server map is produced by
the create endpoint, which always installs a clock object, so `clock` is a
plain field (the `game.clock?.` optional chains never see `undefined`).
-/

namespace PepChess

inductive Color
  | w
  | b
deriving DecidableEq, Repr

inductive Seat
  | white
  | black
  | spectator
deriving DecidableEq, Repr

inductive Status
  | waiting
  | playing
  | ended
deriving DecidableEq, Repr

/-- Opaque stand-in for the chess.js board handle: an abstract position
identifier plus the side to move (`game.chess.turn()`). -/
structure Board where
  pos : Nat
  turn : Color
deriving DecidableEq, Repr

/-- Payload of the `move` socket message. `from` is a Lean keyword, so the
squares are `fromSq`/`toSq`. -/
structure MoveReq where
  fromSq : String
  toSq : String
  promotion : Option String
deriving DecidableEq, Repr

/-- One entry of `game.moves`: `{from, to, san}`. -/
structure MoveRec where
  fromSq : String
  toSq : String
  san : String
deriving DecidableEq, Repr

/-- Result of `game.chess.move(...)`: a new position with SAN, a `null`
return (illegal), or a thrown exception (caught as "Move failed."). -/
inductive MoveOutcome
  | ok (board : Board) (san : String)
  | illegal
  | threw
deriving DecidableEq, Repr

/-- The external chess.js rules engine, as consumed by the server. -/
structure Engine where
  applyMove : Board → MoveReq → MoveOutcome
  isGameOver : Board → Bool
  isCheckmate : Board → Bool
  isStalemate : Board → Bool
  isThreefoldRepetition : Board → Bool
  isInsufficientMaterial : Board → Bool

structure ClockState where
  whiteMs : Int
  blackMs : Int
  running : Bool
  active : Color
  lastTs : Option Int
deriving DecidableEq, Repr

structure DrawCount where
  white : Nat
  black : Nat
deriving DecidableEq, Repr

/-- `game.pep`: the escrow link. `whiteAddress`/`blackAddress` are each
player's private wallet address. -/
structure Pep where
  stake : Option Int
  whiteAddress : Option String
  blackAddress : Option String
  matchId : Option String
  whiteEscrow : Option String
  blackEscrow : Option String
  status : Option String
  error : Option String
deriving DecidableEq, Repr

/-- One session (`game` object of the server). -/
structure Game where
  id : String
  status : Status
  board : Board
  tokensWhite : String
  tokensBlack : Option String
  connectedWhite : Bool
  connectedBlack : Bool
  moves : List MoveRec
  drawOffer : Option Seat
  drawOfferCount : DrawCount
  result : String
  reason : String
  pep : Pep
  clock : ClockState
deriving DecidableEq, Repr

/-- JS truthiness of an optional string: `undefined`/`null` and `""` are
falsy. -/
def strTruthy : Option String → Bool
  | none => false
  | some s => decide (s ≠ "")

/-- `!token` for the optional bearer token. -/
def tokenFalsy : Option String → Bool
  | none => true
  | some s => decide (s = "")

/-- `seatFromToken` of the server. -/
def seatFromToken (g : Game) (token : Option String) : Seat :=
  if tokenFalsy token then Seat.spectator
  else if token = some g.tokensWhite then Seat.white
  else if token = g.tokensBlack then Seat.black
  else Seat.spectator

/-- `expectedTurn = seat === "white" ? "w" : "b"` (only called on seated
players). -/
def seatColor : Seat → Color
  | Seat.white => Color.w
  | _ => Color.b

def INITIAL_CLOCK_MS : Int := 5 * 60 * 1000

/-- `pauseClock`. -/
def pauseClock (g : Game) : Game :=
  { g with clock := { g.clock with running := false, lastTs := none } }

/-- `startClockIfReady`: start only once two players exist and the game is
playing; white starts. -/
def startClockIfReady (g : Game) (now : Int) : Game :=
  if g.clock.running then g
  else if g.tokensBlack = none then g
  else if g.status ≠ Status.playing then g
  else
    { g with clock :=
      { g.clock with running := true, active := Color.w, lastTs := some now } }

/-- Inner charge of `tickClock`: subtract `elapsed` from the active side and
stamp `lastTs = now`. -/
def chargeActive (c : ClockState) (elapsed : Int) (now : Int) : ClockState :=
  if c.active = Color.w then
    { c with whiteMs := c.whiteMs - elapsed, lastTs := some now }
  else
    { c with blackMs := c.blackMs - elapsed, lastTs := some now }

/-- Timeout check at the end of `tickClock`: if either side is at or below
zero the game ends with reason "timeout" (draw if both expired). -/
def timeoutCheck (g : Game) : Game :=
  if g.clock.whiteMs ≤ 0 ∨ g.clock.blackMs ≤ 0 then
    pauseClock
      { g with
        status := Status.ended
        reason := "timeout"
        result :=
          if g.clock.whiteMs ≤ 0 ∧ g.clock.blackMs ≤ 0 then "1/2-1/2"
          else if g.clock.whiteMs ≤ 0 then "0-1" else "1-0" }
  else g

/-- `tickClock(game)` at wall-clock time `now`. -/
def tickClock (g : Game) (now : Int) : Game :=
  if ¬ g.clock.running then g
  else if g.status ≠ Status.playing then g
  else if now - g.clock.lastTs.getD now ≤ 0 then g
  else
    timeoutCheck
      { g with clock := chargeActive g.clock (now - g.clock.lastTs.getD now) now }

/-- `endIfGameOver`: queries the rules engine for terminal conditions after
a successful move. -/
def endIfGameOver (eng : Engine) (g : Game) : Game :=
  if g.status = Status.ended then g
  else if ¬ eng.isGameOver g.board then
    { g with status := if g.tokensBlack ≠ none then Status.playing else Status.waiting }
  else if eng.isCheckmate g.board then
    { pauseClock { g with status := Status.ended } with
      result := if (if g.board.turn = Color.w then Seat.black else Seat.white) = Seat.white
        then "1-0" else "0-1"
      reason := "checkmate" }
  else if eng.isStalemate g.board then
    { pauseClock { g with status := Status.ended } with
      result := "1/2-1/2"
      reason := "stalemate" }
  else if eng.isThreefoldRepetition g.board then
    { pauseClock { g with status := Status.ended } with
      result := "1/2-1/2"
      reason := "threefold repetition" }
  else if eng.isInsufficientMaterial g.board then
    { pauseClock { g with status := Status.ended } with
      result := "1/2-1/2"
      reason := "insufficient material" }
  else
    { pauseClock { g with status := Status.ended } with
      result := "1/2-1/2"
      reason := "draw" }

/-- Messages the server emits: a private `error_msg` to the sender, a
room-wide `state` broadcast, or the private `joined` reply. -/
inductive Emit
  | errorMsg (msg : String)
  | broadcast
  | joined (seat : Seat) (token : Option String)
deriving DecidableEq, Repr

/-- Clock switch after a successful move: active becomes the new side to
move and `lastTs` is stamped (only if the clock is running). -/
def switchClock (g : Game) (now : Int) : Game :=
  if g.clock.running then
    { g with clock := { g.clock with active := g.board.turn, lastTs := some now } }
  else g

/-- Tail of the move handler after the turn check: delegate to the engine,
append to the move log, clear the pending draw offer, switch the clock and
check terminal conditions. -/
def applyMoveResult (eng : Engine) (g : Game) (now : Int) (req : MoveReq)
    (seat : Seat) : Game × List Emit :=
  if g.board.turn ≠ seatColor seat then
    (g, [Emit.errorMsg "Not your turn."])
  else
    match eng.applyMove g.board req with
    | MoveOutcome.illegal => (g, [Emit.errorMsg "Illegal move."])
    | MoveOutcome.threw => (g, [Emit.errorMsg "Move failed."])
    | MoveOutcome.ok b san =>
      (endIfGameOver eng
        (switchClock
          { g with
            board := b
            moves := g.moves ++ [{ fromSq := req.fromSq, toSq := req.toSq, san := san }]
            drawOffer := none } now),
       [Emit.broadcast])

/-- Part of the move handler after the pre-move time charge: if the charge
ended the game (timeout) only a state broadcast goes out. -/
def moveAfterTick (eng : Engine) (g2 : Game) (now : Int) (req : MoveReq)
    (seat : Seat) : Game × List Emit :=
  if g2.status = Status.ended then (g2, [Emit.broadcast])
  else applyMoveResult eng g2 now req seat

/-- The `move` socket handler. -/
def moveHandler (eng : Engine) (g : Game) (token : Option String) (now : Int)
    (req : MoveReq) : Game × List Emit :=
  if seatFromToken g token ≠ Seat.white ∧ seatFromToken g token ≠ Seat.black then
    (g, [Emit.errorMsg "Invalid token."])
  else if g.status = Status.ended then
    (g, [Emit.errorMsg "Game already ended."])
  else if g.status ≠ Status.playing then
    (g, [Emit.errorMsg "Game not started."])
  else
    moveAfterTick eng
      (tickClock (if ¬ g.clock.running then startClockIfReady g now else g) now)
      now req (seatFromToken g token)

/-- The `offer_draw` socket handler (cap of 3 offers per player). -/
def offerDraw (g : Game) (token : Option String) : Game × List Emit :=
  if seatFromToken g token ≠ Seat.white ∧ seatFromToken g token ≠ Seat.black then
    (g, [Emit.errorMsg "Invalid token."])
  else if g.status ≠ Status.playing then (g, [])
  else if (if seatFromToken g token = Seat.white then g.drawOfferCount.white
           else g.drawOfferCount.black) ≥ 3 then
    (g, [Emit.errorMsg "You can only offer draw 3 times per game."])
  else
    ({ g with
       drawOffer := some (seatFromToken g token)
       drawOfferCount :=
         if seatFromToken g token = Seat.white then
           { g.drawOfferCount with white := g.drawOfferCount.white + 1 }
         else
           { g.drawOfferCount with black := g.drawOfferCount.black + 1 } },
     [Emit.broadcast])

/-- The `accept_draw` socket handler. -/
def acceptDraw (g : Game) (token : Option String) : Game × List Emit :=
  if seatFromToken g token ≠ Seat.white ∧ seatFromToken g token ≠ Seat.black then
    (g, [Emit.errorMsg "Invalid token."])
  else if g.status ≠ Status.playing then (g, [])
  else if g.drawOffer = none ∨ g.drawOffer = some (seatFromToken g token) then
    (g, [Emit.errorMsg "No opponent draw offer to accept."])
  else
    (pauseClock
      { g with
        status := Status.ended
        result := "1/2-1/2"
        reason := "agreed draw"
        drawOffer := none },
     [Emit.broadcast])

/-- The `decline_draw` socket handler. -/
def declineDraw (g : Game) (token : Option String) : Game × List Emit :=
  if seatFromToken g token ≠ Seat.white ∧ seatFromToken g token ≠ Seat.black then
    (g, [Emit.errorMsg "Invalid token."])
  else if g.status ≠ Status.playing then (g, [])
  else if g.drawOffer = none ∨ g.drawOffer = some (seatFromToken g token) then
    (g, [Emit.errorMsg "No opponent draw offer to decline."])
  else
    ({ g with drawOffer := none }, [Emit.broadcast])

/-- The `resign` socket handler. Note: the only status guard is
`status === "ended"`, so resignation is also accepted while waiting. -/
def resignHandler (g : Game) (token : Option String) : Game × List Emit :=
  if seatFromToken g token ≠ Seat.white ∧ seatFromToken g token ≠ Seat.black then
    (g, [Emit.errorMsg "Invalid token."])
  else if g.status = Status.ended then (g, [])
  else
    (pauseClock
      { g with
        status := Status.ended
        result :=
          if (if seatFromToken g token = Seat.white then Seat.black else Seat.white)
            = Seat.white then "1-0" else "0-1"
        reason := "resignation"
        drawOffer := none },
     [Emit.broadcast])

/-- Result of the `join_game` socket handler. -/
structure JoinOut where
  game : Game
  seat : Seat
  token : Option String
  emits : List Emit
deriving DecidableEq, Repr

/-- The `join_game` socket handler; `freshTok` is the token that
`newToken()` would mint. The auto-join branch fires whenever the presented
token resolves to spectator and black is unassigned. -/
def joinGame (g : Game) (token : Option String) (freshTok : String) : JoinOut :=
  if seatFromToken g token = Seat.spectator ∧ g.tokensBlack = none then
    { game :=
        { g with
          tokensBlack := some freshTok
          status := Status.playing
          connectedBlack := true }
      seat := Seat.black
      token := some freshTok
      emits := [Emit.joined Seat.black (some freshTok), Emit.broadcast] }
  else
    { game :=
        if seatFromToken g token = Seat.white then { g with connectedWhite := true }
        else if seatFromToken g token = Seat.black then { g with connectedBlack := true }
        else g
      seat := seatFromToken g token
      token := token
      emits := [Emit.joined (seatFromToken g token) token, Emit.broadcast] }

/-- `POST /api/games/:id/join`. The clock is NOT started here (the
`startClockIfReady` call is commented out in the source). -/
def httpJoin (g : Game) (freshTok : String) : Except String Game :=
  if g.tokensBlack ≠ none then Except.error "Game already has 2 players."
  else Except.ok { g with tokensBlack := some freshTok, status := Status.playing }

/-- One iteration of the global `setInterval` ticker for a single game:
only playing games with a running clock are charged. -/
def sweepStep (g : Game) (now : Int) : Game :=
  if g.status ≠ Status.playing then g
  else if ¬ g.clock.running then g
  else tickClock g now

/-- `Number(stake) || null` (stake 0 or NaN becomes null). -/
def pepWithStake (p : Pep) : Option Int → Pep
  | none => p
  | some s => { p with stake := if s = 0 then none else some s }

/-- `address || null` (the empty string becomes null). -/
def addrNorm : Option String → Option String
  | none => none
  | some s => if s = "" then none else some s

/-- Write the caller's own address field. -/
def pepWithAddress (p : Pep) (seat : Seat) : Option (Option String) → Pep
  | none => p
  | some a =>
    if seat = Seat.white then { p with whiteAddress := addrNorm a }
    else { p with blackAddress := addrNorm a }

/-- The `set_pep_info` socket handler. `stakeArg = none` models an
absent/null stake field; `addressArg = none` models an absent address
field. Each seat can write only its own address. -/
def setPepInfo (g : Game) (token : Option String) (stakeArg : Option Int)
    (addressArg : Option (Option String)) : Game × List Emit :=
  if seatFromToken g token ≠ Seat.white ∧ seatFromToken g token ≠ Seat.black then
    (g, [Emit.errorMsg "Only players can set PEP info."])
  else if strTruthy g.pep.matchId then
    (g, [Emit.errorMsg "Cannot change PEP info after match is created."])
  else
    ({ g with pep :=
        pepWithAddress (pepWithStake g.pep stakeArg) (seatFromToken g token) addressArg },
     [Emit.broadcast])

/-- Body the remote escrow service returns on a successful create. -/
structure RemoteData where
  matchId : Option String
  whiteEscrow : Option String
  blackEscrow : Option String
  status : Option String
deriving DecidableEq, Repr

/-- Outcome of the outbound `fetch` to the escrow service. -/
inductive RemoteOutcome
  | ok (d : RemoteData)
  | notOk
  | threw
deriving DecidableEq, Repr

inductive AbortOutcome
  | ok
  | notOk
  | threw
deriving DecidableEq, Repr

/-- Result of an escrow HTTP endpoint: the session afterwards, the HTTP
status of the response, the success flag of the body, whether the remote
service was actually called, the local error message of the response (the
remote's own rejection payload is opaque and modelled as `none`), and the
emitted messages. -/
structure PepCallResult where
  game : Game
  httpStatus : Nat
  ok : Bool
  remoteCalled : Bool
  err : Option String
  emits : List Emit
deriving DecidableEq, Repr

/-- `!stake || stake <= 0` rejects; the call proceeds only for a truthy,
strictly positive stake. -/
def stakeTruthyPos : Option Int → Bool
  | none => false
  | some s => decide (0 < s)

/-- `POST /api/games/:id/pep/create` as one fully serialized run of the
async handler: guards, fetch and response handling with no interleaving.
The handler is `async`, and its matchId guard and matchId write straddle
the `await _fetch` suspension point; `pepCreatePhase1` and
`pepCreateResume` below model those two halves separately so interleaved
executions can be expressed. All guards run before the fetch; the request
body is built only from the stored session state. -/
def pepCreate (g : Game) (token : Option String) (oc : RemoteOutcome) :
    PepCallResult :=
  if seatFromToken g token = Seat.spectator then
    { game := g, httpStatus := 403, ok := false, remoteCalled := false
      err := some "Only players can create the PEP match.", emits := [] }
  else if strTruthy g.pep.matchId then
    { game := g, httpStatus := 400, ok := false, remoteCalled := false
      err := some "PEP match already exists.", emits := [] }
  else if ¬ stakeTruthyPos g.pep.stake then
    { game := g, httpStatus := 400, ok := false, remoteCalled := false
      err := some "Stake must be set before creating PEP match.", emits := [] }
  else if ¬ strTruthy g.pep.whiteAddress then
    { game := g, httpStatus := 400, ok := false, remoteCalled := false
      err := some "White address not set. White player must enter their address."
      emits := [] }
  else if ¬ strTruthy g.pep.blackAddress then
    { game := g, httpStatus := 400, ok := false, remoteCalled := false
      err := some "Black address not set. Black player must enter their address."
      emits := [] }
  else
    match oc with
    | RemoteOutcome.threw =>
      { game := { g with pep := { g.pep with error := some "pep create failed" } }
        httpStatus := 500, ok := false, remoteCalled := true
        err := some "Failed to create match", emits := [Emit.broadcast] }
    | RemoteOutcome.notOk =>
      { game := g, httpStatus := 400, ok := false, remoteCalled := true
        err := none, emits := [] }
    | RemoteOutcome.ok d =>
      { game :=
          { g with pep :=
            { g.pep with
              matchId := d.matchId
              whiteEscrow := d.whiteEscrow
              blackEscrow := d.blackEscrow
              status := some (match d.status with
                | none => "created"
                | some s => if s = "" then "created" else s)
              error := none } }
        httpStatus := 200, ok := true, remoteCalled := true, err := none
        emits := [Emit.broadcast] }

/-- Outcome of the synchronous pre-await half of the create handler:
either a guard rejected the request (no fetch), or the fetch was issued
carrying the stored stake and addresses as its body. -/
inductive CreatePhase1
  | reject (httpStatus : Nat) (err : String)
  | fetchIssued (stake : Option Int) (whiteAddress blackAddress : Option String)
deriving DecidableEq, Repr

/-- Synchronous half of the create handler up to and including issuing
`_fetch` (everything before the `await` resolves): the seat, matchId,
stake and address guards run here, and no session state is written. -/
def pepCreatePhase1 (g : Game) (token : Option String) : CreatePhase1 :=
  if seatFromToken g token = Seat.spectator then
    CreatePhase1.reject 403 "Only players can create the PEP match."
  else if strTruthy g.pep.matchId then
    CreatePhase1.reject 400 "PEP match already exists."
  else if ¬ stakeTruthyPos g.pep.stake then
    CreatePhase1.reject 400 "Stake must be set before creating PEP match."
  else if ¬ strTruthy g.pep.whiteAddress then
    CreatePhase1.reject 400 "White address not set. White player must enter their address."
  else if ¬ strTruthy g.pep.blackAddress then
    CreatePhase1.reject 400 "Black address not set. Black player must enter their address."
  else
    CreatePhase1.fetchIssued g.pep.stake g.pep.whiteAddress g.pep.blackAddress

/-- Continuation of the create handler after `await _fetch` resolves. It
runs against whatever the session state is at that moment and re-checks
nothing — in particular it does not re-read `pep.matchId` before writing
it. -/
def pepCreateResume (g : Game) (oc : RemoteOutcome) : PepCallResult :=
  match oc with
  | RemoteOutcome.threw =>
    { game := { g with pep := { g.pep with error := some "pep create failed" } }
      httpStatus := 500, ok := false, remoteCalled := true
      err := some "Failed to create match", emits := [Emit.broadcast] }
  | RemoteOutcome.notOk =>
    { game := g, httpStatus := 400, ok := false, remoteCalled := true
      err := none, emits := [] }
  | RemoteOutcome.ok d =>
    { game :=
        { g with pep :=
          { g.pep with
            matchId := d.matchId
            whiteEscrow := d.whiteEscrow
            blackEscrow := d.blackEscrow
            status := some (match d.status with
              | none => "created"
              | some s => if s = "" then "created" else s)
            error := none } }
      httpStatus := 200, ok := true, remoteCalled := true, err := none
      emits := [Emit.broadcast] }

/-- `POST /api/games/:id/pep/abort`. -/
def pepAbort (g : Game) (token : Option String) (oc : AbortOutcome) :
    PepCallResult :=
  if seatFromToken g token = Seat.spectator then
    { game := g, httpStatus := 403, ok := false, remoteCalled := false
      err := some "Only players can abort.", emits := [] }
  else if ¬ strTruthy g.pep.matchId then
    { game := g, httpStatus := 400, ok := false, remoteCalled := false
      err := some "No PEP match to abort.", emits := [] }
  else if g.pep.status = some "aborted" then
    { game := g, httpStatus := 400, ok := false, remoteCalled := false
      err := some "Match already aborted.", emits := [] }
  else
    match oc with
    | AbortOutcome.threw =>
      { game := g, httpStatus := 500, ok := false, remoteCalled := true
        err := some "Failed to abort match", emits := [] }
    | AbortOutcome.notOk =>
      { game := g, httpStatus := 400, ok := false, remoteCalled := true
        err := none, emits := [] }
    | AbortOutcome.ok =>
      { game :=
          pauseClock
            { g with
              pep := { g.pep with status := some "aborted" }
              status := Status.ended, reason := "aborted", result := "" }
        httpStatus := 200, ok := true, remoteCalled := true, err := none
        emits := [Emit.broadcast] }

/-- The `disconnect` socket handler (keyed by the seat bound at join). -/
def disconnectHandler (g : Game) (seat : Seat) : Game × List Emit :=
  match seat with
  | Seat.white => ({ g with connectedWhite := false }, [Emit.broadcast])
  | Seat.black => ({ g with connectedBlack := false }, [Emit.broadcast])
  | Seat.spectator => (g, [])

/-- The escrow summary exposed to clients by `stateFor`: raw addresses are
replaced by boolean presence flags. -/
structure PepView where
  stake : Option Int
  matchId : Option String
  whiteEscrow : Option String
  blackEscrow : Option String
  status : Option String
  error : Option String
  whiteAddressSet : Bool
  blackAddressSet : Bool
deriving DecidableEq, Repr

structure ClockView where
  whiteMs : Int
  blackMs : Int
  running : Bool
  active : Color
deriving DecidableEq, Repr

/-- The full state snapshot broadcast to the room. `board` stands for the
`fen`/`pgn` strings, which are functions of the chess handle. -/
structure StateView where
  gameId : String
  status : Status
  board : Board
  turn : Color
  moves : List MoveRec
  result : String
  reason : String
  drawOffer : Option Seat
  drawOfferCount : DrawCount
  pep : PepView
  whiteTimeMs : Int
  blackTimeMs : Int
  clock : ClockView
  players : Option Bool × Option Bool
deriving DecidableEq, Repr

/-- `stateFor(game)`. -/
def stateFor (g : Game) : StateView :=
  { gameId := g.id, status := g.status, board := g.board, turn := g.board.turn
    moves := g.moves, result := g.result, reason := g.reason
    drawOffer := g.drawOffer, drawOfferCount := g.drawOfferCount
    pep :=
      { stake := g.pep.stake, matchId := g.pep.matchId
        whiteEscrow := g.pep.whiteEscrow, blackEscrow := g.pep.blackEscrow
        status := g.pep.status, error := g.pep.error
        whiteAddressSet := strTruthy g.pep.whiteAddress
        blackAddressSet := strTruthy g.pep.blackAddress }
    whiteTimeMs := g.clock.whiteMs, blackTimeMs := g.clock.blackMs
    clock :=
      { whiteMs := g.clock.whiteMs, blackMs := g.clock.blackMs
        running := g.clock.running, active := g.clock.active }
    players :=
      (if g.tokensWhite = "" then none else some g.connectedWhite,
       match g.tokensBlack with
       | none => none
       | some _ => some g.connectedBlack) }

/-- The fresh session built by `POST /api/games` (creator becomes white). -/
def newGame (id : String) (whiteTok : String) : Game :=
  { id := id, status := Status.waiting
    board := { pos := 0, turn := Color.w }
    tokensWhite := whiteTok, tokensBlack := none
    connectedWhite := false, connectedBlack := false
    moves := [], drawOffer := none, drawOfferCount := { white := 0, black := 0 }
    result := "", reason := ""
    pep :=
      { stake := none, whiteAddress := none, blackAddress := none
        matchId := none, whiteEscrow := none, blackEscrow := none
        status := none, error := none }
    clock :=
      { whiteMs := INITIAL_CLOCK_MS, blackMs := INITIAL_CLOCK_MS
        running := false, active := Color.w, lastTs := none } }

/-- Every mutation a session can undergo, for whole-lifecycle invariants. -/
inductive Op
  | moveMsg (token : Option String) (now : Int) (req : MoveReq)
  | offerDrawMsg (token : Option String)
  | acceptDrawMsg (token : Option String)
  | declineDrawMsg (token : Option String)
  | resignMsg (token : Option String)
  | sweep (now : Int)
  | joinHttp (fresh : String)
  | joinSocket (token : Option String) (fresh : String)
  | setInfo (token : Option String) (stakeArg : Option Int)
      (addressArg : Option (Option String))
  | createPep (token : Option String) (oc : RemoteOutcome)
  | abortPep (token : Option String) (oc : AbortOutcome)
  | disconnect (seat : Seat)

/-- The session after one operation. -/
def step (eng : Engine) (g : Game) : Op → Game
  | Op.moveMsg t now req => (moveHandler eng g t now req).1
  | Op.offerDrawMsg t => (offerDraw g t).1
  | Op.acceptDrawMsg t => (acceptDraw g t).1
  | Op.declineDrawMsg t => (declineDraw g t).1
  | Op.resignMsg t => (resignHandler g t).1
  | Op.sweep now => sweepStep g now
  | Op.joinHttp fresh =>
    match httpJoin g fresh with
    | Except.ok g1 => g1
    | Except.error _ => g
  | Op.joinSocket t fresh => (joinGame g t fresh).game
  | Op.setInfo t s a => (setPepInfo g t s a).1
  | Op.createPep t oc => (pepCreate g t oc).game
  | Op.abortPep t oc => (pepAbort g t oc).game
  | Op.disconnect s => (disconnectHandler g s).1

/-- Per-seat draw-offer counter (`game.drawOfferCount[seat]`). -/
def dget (g : Game) : Seat → Nat
  | Seat.white => g.drawOfferCount.white
  | Seat.black => g.drawOfferCount.black
  | Seat.spectator => 0

/-- A concrete stub rules engine for witnesses: every move is illegal and
no position is terminal (the theorems it instantiates never reach the
engine or hold for every engine). -/
def engStub : Engine :=
  { applyMove := fun _ _ => MoveOutcome.illegal
    isGameOver := fun _ => false
    isCheckmate := fun _ => false
    isStalemate := fun _ => false
    isThreefoldRepetition := fun _ => false
    isInsufficientMaterial := fun _ => false }

/-! Field-preservation lemmas for the clock engine and move pipeline. -/

theorem pauseClock_board (g : Game) : (pauseClock g).board = g.board := rfl

theorem pauseClock_moves (g : Game) : (pauseClock g).moves = g.moves := rfl

theorem pauseClock_dc (g : Game) :
    (pauseClock g).drawOfferCount = g.drawOfferCount := rfl

theorem pauseClock_pep (g : Game) : (pauseClock g).pep = g.pep := rfl

theorem startClockIfReady_board (g : Game) (now : Int) :
    (startClockIfReady g now).board = g.board := by
  unfold startClockIfReady
  repeat' split
  all_goals rfl

theorem startClockIfReady_moves (g : Game) (now : Int) :
    (startClockIfReady g now).moves = g.moves := by
  unfold startClockIfReady
  repeat' split
  all_goals rfl

theorem startClockIfReady_status (g : Game) (now : Int) :
    (startClockIfReady g now).status = g.status := by
  unfold startClockIfReady
  repeat' split
  all_goals rfl

theorem startClockIfReady_dc (g : Game) (now : Int) :
    (startClockIfReady g now).drawOfferCount = g.drawOfferCount := by
  unfold startClockIfReady
  repeat' split
  all_goals rfl

theorem startClockIfReady_pep (g : Game) (now : Int) :
    (startClockIfReady g now).pep = g.pep := by
  unfold startClockIfReady
  repeat' split
  all_goals rfl

theorem tickClock_board (g : Game) (now : Int) :
    (tickClock g now).board = g.board := by
  unfold tickClock timeoutCheck chargeActive pauseClock
  repeat' split
  all_goals rfl

theorem tickClock_moves (g : Game) (now : Int) :
    (tickClock g now).moves = g.moves := by
  unfold tickClock timeoutCheck chargeActive pauseClock
  repeat' split
  all_goals rfl

theorem tickClock_dc (g : Game) (now : Int) :
    (tickClock g now).drawOfferCount = g.drawOfferCount := by
  unfold tickClock timeoutCheck chargeActive pauseClock
  repeat' split
  all_goals rfl

theorem tickClock_pep (g : Game) (now : Int) :
    (tickClock g now).pep = g.pep := by
  unfold tickClock timeoutCheck chargeActive pauseClock
  repeat' split
  all_goals rfl

theorem tickClock_status_cases (g : Game) (now : Int) :
    (tickClock g now).status = g.status ∨
      ((tickClock g now).status = Status.ended ∧ (tickClock g now).reason = "timeout") := by
  unfold tickClock timeoutCheck chargeActive pauseClock
  repeat' split
  all_goals first
    | exact Or.inl rfl
    | exact Or.inr ⟨rfl, rfl⟩

theorem endIfGameOver_dc (eng : Engine) (g : Game) :
    (endIfGameOver eng g).drawOfferCount = g.drawOfferCount := by
  unfold endIfGameOver pauseClock
  repeat' split
  all_goals rfl

theorem endIfGameOver_pep (eng : Engine) (g : Game) :
    (endIfGameOver eng g).pep = g.pep := by
  unfold endIfGameOver pauseClock
  repeat' split
  all_goals rfl

theorem endIfGameOver_drawOffer (eng : Engine) (g : Game) :
    (endIfGameOver eng g).drawOffer = g.drawOffer := by
  unfold endIfGameOver pauseClock
  repeat' split
  all_goals rfl

theorem switchClock_drawOffer (g : Game) (now : Int) :
    (switchClock g now).drawOffer = g.drawOffer := by
  unfold switchClock
  split
  all_goals rfl

theorem switchClock_dc (g : Game) (now : Int) :
    (switchClock g now).drawOfferCount = g.drawOfferCount := by
  unfold switchClock
  split
  all_goals rfl

theorem switchClock_pep (g : Game) (now : Int) :
    (switchClock g now).pep = g.pep := by
  unfold switchClock
  split
  all_goals rfl

/-- A seated resolver result is white or black. -/
theorem seated_cases (g : Game) (tok : Option String)
    (h : seatFromToken g tok ≠ Seat.spectator) :
    seatFromToken g tok = Seat.white ∨ seatFromToken g tok = Seat.black := by
  cases hs : seatFromToken g tok
  · exact Or.inl rfl
  · exact Or.inr rfl
  · exact absurd hs h

/-- C2: once a session has ended, the move, offer_draw, accept_draw,
decline_draw and resign handlers and the clock tick all leave the session
record — game result, reason, move log, draw state and clock included —
exactly as it was. -/
theorem c2_ended_state_frozen (eng : Engine) (g : Game)
    (h : g.status = Status.ended) :
    (∀ tok now req, (moveHandler eng g tok now req).1 = g) ∧
    (∀ tok, (offerDraw g tok).1 = g) ∧
    (∀ tok, (acceptDraw g tok).1 = g) ∧
    (∀ tok, (declineDraw g tok).1 = g) ∧
    (∀ tok, (resignHandler g tok).1 = g) ∧
    (∀ now, tickClock g now = g) ∧
    (∀ now, sweepStep g now = g) := by
  refine ⟨?_, ?_, ?_, ?_, ?_, ?_, ?_⟩
  · intro tok now req
    unfold moveHandler
    repeat' split
    all_goals first | rfl | simp_all
  · intro tok
    unfold offerDraw
    repeat' split
    all_goals first | rfl | simp_all
  · intro tok
    unfold acceptDraw
    repeat' split
    all_goals first | rfl | simp_all
  · intro tok
    unfold declineDraw
    repeat' split
    all_goals first | rfl | simp_all
  · intro tok
    unfold resignHandler
    repeat' split
    all_goals first | rfl | simp_all
  · intro now
    unfold tickClock
    repeat' split
    all_goals first | rfl | simp_all
  · intro now
    unfold sweepStep
    repeat' split
    all_goals first | rfl | simp_all

/-- Ended session used to instantiate the frozen-state theorem. -/
def gEnd2 : Game :=
  { newGame "game2" "wt2" with
    status := Status.ended
    tokensBlack := some "bt2"
    result := "1-0"
    reason := "checkmate" }

/-- Witness for C2 at a concrete ended session. -/
theorem c2_ended_state_frozen_witness :
    gEnd2.status = Status.ended ∧
    (resignHandler gEnd2 (some "wt2")).1 = gEnd2 ∧
    (offerDraw gEnd2 (some "bt2")).1 = gEnd2 ∧
    tickClock gEnd2 999999 = gEnd2 :=
  ⟨rfl,
   (c2_ended_state_frozen engStub gEnd2 rfl).2.2.2.2.1 (some "wt2"),
   (c2_ended_state_frozen engStub gEnd2 rfl).2.1 (some "bt2"),
   (c2_ended_state_frozen engStub gEnd2 rfl).2.2.2.2.2.1 999999⟩

/-- Fresh waiting session used to refute the claim that `waiting` rejects
every non-join mutation. -/
def gWait5 : Game := newGame "game5" "wt5"

/-- C5 counterexample: in a waiting session (black never joined) a resign
request from the seated white player is NOT rejected — it ends the session
with reason "resignation", mutating the state. -/
theorem c5_resign_in_waiting_cex :
    gWait5.status = Status.waiting ∧
    seatFromToken gWait5 (some "wt5") = Seat.white ∧
    (resignHandler gWait5 (some "wt5")).1.status = Status.ended ∧
    (resignHandler gWait5 (some "wt5")).1.reason = "resignation" ∧
    (resignHandler gWait5 (some "wt5")).1 ≠ gWait5 := by
  refine ⟨rfl, by decide, rfl, rfl, by decide⟩

/-- C5 (amended): while status = waiting, move, offer_draw, accept_draw and
decline_draw are rejected and leave the session unchanged; resign from a
seated player, however, is accepted even while waiting and ends the session
with reason "resignation", stopping the clock. -/
theorem c5_waiting_rejects_all_but_resign (eng : Engine) (g : Game)
    (h : g.status = Status.waiting) :
    (∀ tok now req, (moveHandler eng g tok now req).1 = g) ∧
    (∀ tok, (offerDraw g tok).1 = g) ∧
    (∀ tok, (acceptDraw g tok).1 = g) ∧
    (∀ tok, (declineDraw g tok).1 = g) ∧
    (∀ tok, seatFromToken g tok ≠ Seat.spectator →
      (resignHandler g tok).1.status = Status.ended ∧
      (resignHandler g tok).1.reason = "resignation" ∧
      (resignHandler g tok).1.clock.running = false) := by
  refine ⟨?_, ?_, ?_, ?_, ?_⟩
  · intro tok now req
    unfold moveHandler
    repeat' split
    all_goals first | rfl | simp_all
  · intro tok
    unfold offerDraw
    repeat' split
    all_goals first | rfl | simp_all
  · intro tok
    unfold acceptDraw
    repeat' split
    all_goals first | rfl | simp_all
  · intro tok
    unfold declineDraw
    repeat' split
    all_goals first | rfl | simp_all
  · intro tok hseat
    unfold resignHandler
    rcases seated_cases g tok hseat with hw | hb
    · rw [if_neg (by rw [hw]; intro hc; exact hc.1 rfl)]
      rw [if_neg (by rw [h]; exact fun hc => Status.noConfusion hc)]
      exact ⟨rfl, rfl, rfl⟩
    · rw [if_neg (by rw [hb]; intro hc; exact hc.2 rfl)]
      rw [if_neg (by rw [h]; exact fun hc => Status.noConfusion hc)]
      exact ⟨rfl, rfl, rfl⟩

/-- Witness for the amended C5 at a concrete waiting session. -/
theorem c5_waiting_rejects_all_but_resign_witness :
    ((moveHandler engStub (newGame "g5w" "w5") (some "w5") 1000
        { fromSq := "e2", toSq := "e4", promotion := none }).1 = newGame "g5w" "w5") ∧
    ((offerDraw (newGame "g5w" "w5") (some "w5")).1 = newGame "g5w" "w5") ∧
    ((resignHandler (newGame "g5w" "w5") (some "w5")).1.status = Status.ended) :=
  ⟨(c5_waiting_rejects_all_but_resign engStub (newGame "g5w" "w5") rfl).1
      (some "w5") 1000 { fromSq := "e2", toSq := "e4", promotion := none },
   (c5_waiting_rejects_all_but_resign engStub (newGame "g5w" "w5") rfl).2.1 (some "w5"),
   ((c5_waiting_rejects_all_but_resign engStub (newGame "g5w" "w5") rfl).2.2.2.2
      (some "w5") (by decide)).1⟩

/-- Fresh session used to exhibit the auto-join of a wrong-token caller. -/
def gWait4 : Game := newGame "game4" "wt4"

/-- C4: evaluation at the failing input. A caller presenting the non-empty
token "intruder", which matches neither stored seat token, resolves to
spectator; yet because black is unassigned, `join_game` mints a black token
for that caller, binds it and promotes the session to playing — the code
implicitly assigns a seat to a caller that did present a (foreign) token,
contradicting the "only for a caller presenting no prior token" rule that
both the spec and the code's own comment state. -/
theorem c4_wrong_token_autojoin_eval :
    seatFromToken gWait4 (some "intruder") = Seat.spectator ∧
    (joinGame gWait4 (some "intruder") "bt4").seat = Seat.black ∧
    (joinGame gWait4 (some "intruder") "bt4").game.tokensBlack = some "bt4" ∧
    (joinGame gWait4 (some "intruder") "bt4").game.status = Status.playing ∧
    (joinGame gWait4 (some "intruder") "bt4").token = some "bt4" := by
  refine ⟨by decide, by decide, by decide, by decide, by decide⟩

/-- C9: the broadcast snapshot depends on the stored wallet addresses only
through their boolean presence flags (`!!address`), so two sessions whose
addresses have equal truthiness — in particular two set, non-empty
addresses with different values — produce identical snapshots; the raw
addresses never appear in the `StateView`. -/
theorem c9_snapshot_address_noninterference (g : Game)
    (wa wa2 ba ba2 : Option String)
    (hw : strTruthy wa = strTruthy wa2) (hb : strTruthy ba = strTruthy ba2) :
    stateFor { g with pep := { g.pep with whiteAddress := wa, blackAddress := ba } } =
    stateFor { g with pep := { g.pep with whiteAddress := wa2, blackAddress := ba2 } } := by
  unfold stateFor
  simp only
  rw [hw, hb]

/-- Witness for C9: two concrete sessions differing only in the players'
wallet address values give the same broadcast snapshot. -/
theorem c9_snapshot_address_noninterference_witness :
    stateFor { newGame "g9" "wt9" with
      pep := { (newGame "g9" "wt9").pep with
        whiteAddress := some "PwalletAAA", blackAddress := some "PwalletBBB" } } =
    stateFor { newGame "g9" "wt9" with
      pep := { (newGame "g9" "wt9").pep with
        whiteAddress := some "PwalletCCC", blackAddress := some "PwalletDDD" } } :=
  c9_snapshot_address_noninterference (newGame "g9" "wt9")
    (some "PwalletAAA") (some "PwalletCCC") (some "PwalletBBB") (some "PwalletDDD")
    (by decide) (by decide)

/-- A tick at the exact moment stamped in `lastTs` charges nothing. -/
theorem tickClock_fix (g : Game) (now : Int) (h : g.clock.lastTs = some now) :
    tickClock g now = g := by
  unfold tickClock
  repeat' split
  all_goals simp_all

theorem switchClock_running (g : Game) (now : Int) :
    (switchClock g now).clock.running = g.clock.running := by
  unfold switchClock
  split
  all_goals rfl

theorem switchClock_status (g : Game) (now : Int) :
    (switchClock g now).status = g.status := by
  unfold switchClock
  split
  all_goals rfl

theorem endIfGameOver_running_or_ended (eng : Engine) (g : Game) :
    (endIfGameOver eng g).clock.running = g.clock.running ∨
      (endIfGameOver eng g).status = Status.ended := by
  unfold endIfGameOver pauseClock
  repeat' split
  all_goals first | exact Or.inl rfl | exact Or.inr rfl

/-- Joined session used to refute the immediate-clock-start claim. -/
def gJoin3 : Game :=
  { newGame "game3" "wt3" with tokensBlack := some "bt3", status := Status.playing }

/-- C3 counterexample: immediately after black joins via the HTTP join
endpoint the session is playing with both tokens bound, yet the clock is
NOT running, and a global sweep 65 seconds later leaves white's remaining
time untouched at the initial 300000 ms — the `startClockIfReady` call at
join is commented out in the source. -/
theorem c3_clock_idle_after_join_cex :
    httpJoin (newGame "game3" "wt3") "bt3" = Except.ok gJoin3 ∧
    gJoin3.status = Status.playing ∧
    gJoin3.tokensBlack = some "bt3" ∧
    gJoin3.clock.running = false ∧
    sweepStep gJoin3 65000 = gJoin3 ∧
    gJoin3.clock.whiteMs = 300000 := by
  refine ⟨rfl, rfl, rfl, rfl, by decide, rfl⟩

/-- C3 (amended): joining binds the black token and sets status = playing
but does not touch the clock, so an idle session's clock is not running and
every global sweep leaves it (in particular white's remaining time)
unchanged; the clock is started — active on white, `lastTs` stamped — only
by `startClockIfReady`, which the move handler invokes on the first move of
a playing session, and after that first invocation the session's clock is
running (unless that very move ended the game). -/
theorem c3_clock_starts_on_first_move :
    (∀ g fresh g1, httpJoin g fresh = Except.ok g1 →
      g1.status = Status.playing ∧ g1.tokensBlack = some fresh ∧ g1.clock = g.clock) ∧
    (∀ g now, g.clock.running = false → sweepStep g now = g) ∧
    (∀ g now, g.clock.running = false → g.tokensBlack ≠ none →
      g.status = Status.playing →
      (startClockIfReady g now).clock.running = true ∧
      (startClockIfReady g now).clock.active = Color.w ∧
      (startClockIfReady g now).clock.lastTs = some now) ∧
    (∀ eng g tok now req, g.status = Status.playing → g.clock.running = false →
      g.tokensBlack ≠ none → seatFromToken g tok ≠ Seat.spectator →
      ((moveHandler eng g tok now req).1.clock.running = true ∨
        (moveHandler eng g tok now req).1.status = Status.ended)) := by
  have hstart : ∀ g now, g.clock.running = false → g.tokensBlack ≠ none →
      g.status = Status.playing →
      (startClockIfReady g now).clock.running = true ∧
      (startClockIfReady g now).clock.active = Color.w ∧
      (startClockIfReady g now).clock.lastTs = some now := by
    intro g now hrun hblack hp
    unfold startClockIfReady
    repeat' split
    all_goals first | exact ⟨rfl, rfl, rfl⟩ | simp_all
  refine ⟨?_, ?_, hstart, ?_⟩
  · intro g fresh g1 hj
    unfold httpJoin at hj
    split at hj
    · exact Except.noConfusion hj
    · cases hj
      exact ⟨rfl, rfl, rfl⟩
  · intro g now hrun
    unfold sweepStep
    repeat' split
    all_goals first | rfl | simp_all
  · intro eng g tok now req hp hrun hblack hseat
    have hnotseat :
        ¬ (seatFromToken g tok ≠ Seat.white ∧ seatFromToken g tok ≠ Seat.black) := by
      rcases seated_cases g tok hseat with hw | hb
      · exact fun hc => hc.1 hw
      · exact fun hc => hc.2 hb
    have h1 := hstart g now hrun hblack hp
    have h1status : (startClockIfReady g now).status = g.status :=
      startClockIfReady_status g now
    have htk : tickClock (startClockIfReady g now) now = startClockIfReady g now :=
      tickClock_fix _ _ h1.2.2
    unfold moveHandler
    rw [if_neg hnotseat]
    rw [if_neg (by rw [hp]; exact fun hc => Status.noConfusion hc)]
    rw [if_neg (by rw [hp]; exact fun hc => hc rfl)]
    rw [if_pos (by rw [hrun]; exact fun hc => Bool.noConfusion hc), htk]
    unfold moveAfterTick
    rw [if_neg (by rw [h1status, hp]; exact fun hc => Status.noConfusion hc)]
    unfold applyMoveResult
    split
    · exact Or.inl h1.1
    · rcases happ : eng.applyMove (startClockIfReady g now).board req with ⟨b, san⟩ | _ | _
      · rcases endIfGameOver_running_or_ended eng
            (switchClock
              { startClockIfReady g now with
                board := b
                moves := (startClockIfReady g now).moves ++
                  [{ fromSq := req.fromSq, toSq := req.toSq, san := san }]
                drawOffer := none } now) with hh | hh
        · exact Or.inl (hh.trans ((switchClock_running _ _).trans h1.1))
        · exact Or.inr hh
      · exact Or.inl h1.1
      · exact Or.inl h1.1

/-- Witness for the amended C3: a concrete joined idle session is swept
without change, and `startClockIfReady` at the first move starts white's
clock. -/
theorem c3_clock_starts_on_first_move_witness :
    sweepStep gJoin3 65000 = gJoin3 ∧
    (startClockIfReady gJoin3 70000).clock.running = true ∧
    (startClockIfReady gJoin3 70000).clock.active = Color.w :=
  ⟨c3_clock_starts_on_first_move.2.1 gJoin3 65000 rfl,
   (c3_clock_starts_on_first_move.2.2.1 gJoin3 70000 rfl (by decide) rfl).1,
   (c3_clock_starts_on_first_move.2.2.1 gJoin3 70000 rfl (by decide) rfl).2.1⟩

/-- Playing session whose side to move is white and whose white clock is
nearly exhausted: used to show a wrong-turn move ending in a timeout
instead of a NotYourTurn rejection. -/
def gPlay6 : Game :=
  { newGame "game6" "wt6" with
    tokensBlack := some "bt6"
    status := Status.playing
    clock :=
      { whiteMs := 1000, blackMs := 300000, running := true, active := Color.w,
        lastTs := some 0 } }

/-- C6 counterexample: in a playing session, black (whose color differs
from the side to move) submits a move; the pre-move time charge drives
white's clock to zero, so the session ends with reason "timeout" and the
handler emits a state broadcast — not the private "Not your turn." error
the claim promises for every such move. -/
theorem c6_wrong_turn_timeout_cex :
    gPlay6.status = Status.playing ∧
    seatFromToken gPlay6 (some "bt6") = Seat.black ∧
    gPlay6.board.turn ≠ seatColor Seat.black ∧
    (moveHandler engStub gPlay6 (some "bt6") 2000
        { fromSq := "e7", toSq := "e5", promotion := none }).2 = [Emit.broadcast] ∧
    (moveHandler engStub gPlay6 (some "bt6") 2000
        { fromSq := "e7", toSq := "e5", promotion := none }).1.reason = "timeout" ∧
    (moveHandler engStub gPlay6 (some "bt6") 2000
        { fromSq := "e7", toSq := "e5", promotion := none }).2 ≠
      [Emit.errorMsg "Not your turn."] := by
  refine ⟨rfl, by decide, by decide, by decide, by decide, by decide⟩

/-- C6 (amended): a move by a seated player whose color differs from the
side to move never changes the move log or the board; it is rejected with a
private "Not your turn." error unless the pre-move time charge has already
ended the session, in which case the session ends with reason "timeout" and
only a state broadcast goes out. -/
theorem c6_wrong_turn_rejected_unless_timeout (eng : Engine) (g : Game)
    (tok : Option String) (now : Int) (req : MoveReq)
    (hp : g.status = Status.playing)
    (hseat : seatFromToken g tok ≠ Seat.spectator)
    (ht : g.board.turn ≠ seatColor (seatFromToken g tok)) :
    (moveHandler eng g tok now req).1.moves = g.moves ∧
    (moveHandler eng g tok now req).1.board = g.board ∧
    (((moveHandler eng g tok now req).1.status = Status.ended ∧
      (moveHandler eng g tok now req).1.reason = "timeout" ∧
      (moveHandler eng g tok now req).2 = [Emit.broadcast]) ∨
     (moveHandler eng g tok now req).2 = [Emit.errorMsg "Not your turn."]) := by
  have hnotseat :
      ¬ (seatFromToken g tok ≠ Seat.white ∧ seatFromToken g tok ≠ Seat.black) := by
    rcases seated_cases g tok hseat with hw | hb
    · exact fun hc => hc.1 hw
    · exact fun hc => hc.2 hb
  have hg1b : (if ¬ g.clock.running then startClockIfReady g now else g).board = g.board := by
    split
    · exact startClockIfReady_board g now
    · rfl
  have hg1m : (if ¬ g.clock.running then startClockIfReady g now else g).moves = g.moves := by
    split
    · exact startClockIfReady_moves g now
    · rfl
  have hg1s : (if ¬ g.clock.running then startClockIfReady g now else g).status = g.status := by
    split
    · exact startClockIfReady_status g now
    · rfl
  have hmoves :
      (tickClock (if ¬ g.clock.running then startClockIfReady g now else g) now).moves
        = g.moves :=
    (tickClock_moves _ now).trans hg1m
  have hboard :
      (tickClock (if ¬ g.clock.running then startClockIfReady g now else g) now).board
        = g.board :=
    (tickClock_board _ now).trans hg1b
  have hstat2 :
      (tickClock (if ¬ g.clock.running then startClockIfReady g now else g) now).status
          = g.status ∨
        ((tickClock (if ¬ g.clock.running then startClockIfReady g now else g) now).status
            = Status.ended ∧
          (tickClock (if ¬ g.clock.running then startClockIfReady g now else g) now).reason
            = "timeout") := by
    rcases tickClock_status_cases
        (if ¬ g.clock.running then startClockIfReady g now else g) now with hc | hc
    · exact Or.inl (hc.trans hg1s)
    · exact Or.inr hc
  unfold moveHandler
  rw [if_neg hnotseat]
  rw [if_neg (by rw [hp]; exact fun hc => Status.noConfusion hc)]
  rw [if_neg (by rw [hp]; exact fun hc => hc rfl)]
  unfold moveAfterTick
  generalize hG2 :
    tickClock (if ¬ g.clock.running then startClockIfReady g now else g) now = G2
  rw [hG2] at hmoves hboard hstat2
  split
  · next hend =>
    refine ⟨hmoves, hboard, Or.inl ⟨hend, ?_, rfl⟩⟩
    rcases hstat2 with hc | hc
    · exact absurd (hc.symm.trans hend)
        (by rw [hp]; exact fun hcc => Status.noConfusion hcc)
    · exact hc.2
  · next hnend =>
    unfold applyMoveResult
    rw [if_pos (by rw [hboard]; exact ht)]
    exact ⟨hmoves, hboard, Or.inr rfl⟩

/-- Playing session with ample time on the clock for the witness. -/
def gTurn6 : Game :=
  { newGame "game6w" "wt6w" with
    tokensBlack := some "bt6w"
    status := Status.playing
    clock :=
      { whiteMs := 300000, blackMs := 300000, running := true, active := Color.w,
        lastTs := some 0 } }

/-- Witness for the amended C6: with plenty of time left, black's
wrong-turn move is rejected with the private error and the move log and
board are untouched. -/
theorem c6_wrong_turn_rejected_unless_timeout_witness :
    (moveHandler engStub gTurn6 (some "bt6w") 100
        { fromSq := "e7", toSq := "e5", promotion := none }).1.moves = gTurn6.moves ∧
    (moveHandler engStub gTurn6 (some "bt6w") 100
        { fromSq := "e7", toSq := "e5", promotion := none }).1.board = gTurn6.board ∧
    (((moveHandler engStub gTurn6 (some "bt6w") 100
        { fromSq := "e7", toSq := "e5", promotion := none }).1.status = Status.ended ∧
      (moveHandler engStub gTurn6 (some "bt6w") 100
        { fromSq := "e7", toSq := "e5", promotion := none }).1.reason = "timeout" ∧
      (moveHandler engStub gTurn6 (some "bt6w") 100
        { fromSq := "e7", toSq := "e5", promotion := none }).2 = [Emit.broadcast]) ∨
     (moveHandler engStub gTurn6 (some "bt6w") 100
        { fromSq := "e7", toSq := "e5", promotion := none }).2 =
       [Emit.errorMsg "Not your turn."]) :=
  c6_wrong_turn_rejected_unless_timeout engStub gTurn6 (some "bt6w") 100
    { fromSq := "e7", toSq := "e5", promotion := none } rfl (by decide) (by decide)

theorem chargeActive_w (c : ClockState) (e now : Int) (h : c.active = Color.w) :
    chargeActive c e now = { c with whiteMs := c.whiteMs - e, lastTs := some now } := by
  unfold chargeActive
  rw [if_pos h]

theorem chargeActive_b (c : ClockState) (e now : Int) (h : c.active = Color.b) :
    chargeActive c e now = { c with blackMs := c.blackMs - e, lastTs := some now } := by
  unfold chargeActive
  rw [if_neg (by rw [h]; exact fun hc => Color.noConfusion hc)]

/-- When a side has expired, `timeoutCheck` ends the game with reason
"timeout" and touches nothing but status, reason, result and the clock's
running/lastTs flags. -/
theorem timeoutCheck_expired (gg : Game)
    (h : gg.clock.whiteMs ≤ 0 ∨ gg.clock.blackMs ≤ 0) :
    (timeoutCheck gg).status = Status.ended ∧
    (timeoutCheck gg).reason = "timeout" ∧
    (timeoutCheck gg).moves = gg.moves ∧
    (timeoutCheck gg).board = gg.board ∧
    (timeoutCheck gg).clock.whiteMs = gg.clock.whiteMs ∧
    (timeoutCheck gg).clock.blackMs = gg.clock.blackMs := by
  unfold timeoutCheck pauseClock
  rw [if_pos h]
  exact ⟨rfl, rfl, rfl, rfl, rfl, rfl⟩

/-- C10: a move message sent while the sender's clock is the active one
first charges the wall-clock time elapsed since `lastTs`; if that charge
exhausts the remaining time, the session ends right there with reason
"timeout" and the submitted move is never applied — the move log and board
are unchanged and only a state broadcast is emitted, whatever the rules
engine would have said about the move. -/
theorem c10_pre_move_timeout (eng : Engine) (g : Game) (tok : Option String)
    (now l : Int) (req : MoveReq)
    (hp : g.status = Status.playing)
    (hseat : seatFromToken g tok ≠ Seat.spectator)
    (hact : g.clock.active = seatColor (seatFromToken g tok))
    (hrun : g.clock.running = true)
    (hlast : g.clock.lastTs = some l)
    (hel : 0 < now - l)
    (hout : (if g.clock.active = Color.w then g.clock.whiteMs else g.clock.blackMs)
      ≤ now - l) :
    (moveHandler eng g tok now req).1.status = Status.ended ∧
    (moveHandler eng g tok now req).1.reason = "timeout" ∧
    (moveHandler eng g tok now req).1.moves = g.moves ∧
    (moveHandler eng g tok now req).1.board = g.board ∧
    (moveHandler eng g tok now req).2 = [Emit.broadcast] ∧
    (if g.clock.active = Color.w then (moveHandler eng g tok now req).1.clock.whiteMs
      else (moveHandler eng g tok now req).1.clock.blackMs)
      = (if g.clock.active = Color.w then g.clock.whiteMs else g.clock.blackMs)
        - (now - l) := by
  have hnotseat :
      ¬ (seatFromToken g tok ≠ Seat.white ∧ seatFromToken g tok ≠ Seat.black) := by
    rcases seated_cases g tok hseat with hw | hb
    · exact fun hc => hc.1 hw
    · exact fun hc => hc.2 hb
  have htick : tickClock g now =
      timeoutCheck { g with clock := chargeActive g.clock (now - l) now } := by
    unfold tickClock
    rw [if_neg (fun hc => hc hrun)]
    rw [if_neg (by rw [hp]; exact fun hc => hc rfl)]
    rw [hlast, Option.getD_some]
    rw [if_neg (by omega)]
  cases hcase : g.clock.active with
  | w =>
    rw [hcase] at hout
    rw [if_pos rfl] at hout
    have hch : chargeActive g.clock (now - l) now =
        { g.clock with whiteMs := g.clock.whiteMs - (now - l), lastTs := some now } :=
      chargeActive_w _ _ _ hcase
    have hfields := timeoutCheck_expired
      { g with clock :=
          { g.clock with whiteMs := g.clock.whiteMs - (now - l), lastTs := some now } }
      (Or.inl (show g.clock.whiteMs - (now - l) ≤ 0 by omega))
    unfold moveHandler
    rw [if_neg hnotseat]
    rw [if_neg (by rw [hp]; exact fun hc => Status.noConfusion hc)]
    rw [if_neg (by rw [hp]; exact fun hc => hc rfl)]
    rw [if_neg (fun hc => hc hrun)]
    rw [htick, hch]
    unfold moveAfterTick
    rw [if_pos hfields.1]
    refine ⟨hfields.1, hfields.2.1, hfields.2.2.1, hfields.2.2.2.1, rfl, ?_⟩
    rw [if_pos rfl, if_pos rfl]
    exact hfields.2.2.2.2.1
  | b =>
    rw [hcase] at hout
    rw [if_neg (fun hc => Color.noConfusion hc)] at hout
    have hch : chargeActive g.clock (now - l) now =
        { g.clock with blackMs := g.clock.blackMs - (now - l), lastTs := some now } :=
      chargeActive_b _ _ _ hcase
    have hfields := timeoutCheck_expired
      { g with clock :=
          { g.clock with blackMs := g.clock.blackMs - (now - l), lastTs := some now } }
      (Or.inr (show g.clock.blackMs - (now - l) ≤ 0 by omega))
    unfold moveHandler
    rw [if_neg hnotseat]
    rw [if_neg (by rw [hp]; exact fun hc => Status.noConfusion hc)]
    rw [if_neg (by rw [hp]; exact fun hc => hc rfl)]
    rw [if_neg (fun hc => hc hrun)]
    rw [htick, hch]
    unfold moveAfterTick
    rw [if_pos hfields.1]
    refine ⟨hfields.1, hfields.2.1, hfields.2.2.1, hfields.2.2.2.1, rfl, ?_⟩
    rw [if_neg (fun hc => Color.noConfusion hc),
      if_neg (fun hc => Color.noConfusion hc)]
    exact hfields.2.2.2.2.2

/-- Playing session where white is to move with white's clock active and
65 seconds of charge pending against 60 seconds of remaining time. -/
def gFlag10 : Game :=
  { newGame "gameA" "wtA" with
    tokensBlack := some "btA"
    status := Status.playing
    clock :=
      { whiteMs := 60000, blackMs := 300000, running := true, active := Color.w,
        lastTs := some 0 } }

/-- Witness for C10: white's own (legal-looking) move submitted after the
flag fell ends the game by timeout without being applied. -/
theorem c10_pre_move_timeout_witness :
    (moveHandler engStub gFlag10 (some "wtA") 65000
        { fromSq := "e2", toSq := "e4", promotion := none }).1.status = Status.ended ∧
    (moveHandler engStub gFlag10 (some "wtA") 65000
        { fromSq := "e2", toSq := "e4", promotion := none }).1.reason = "timeout" ∧
    (moveHandler engStub gFlag10 (some "wtA") 65000
        { fromSq := "e2", toSq := "e4", promotion := none }).1.moves = gFlag10.moves ∧
    (moveHandler engStub gFlag10 (some "wtA") 65000
        { fromSq := "e2", toSq := "e4", promotion := none }).1.board = gFlag10.board ∧
    (moveHandler engStub gFlag10 (some "wtA") 65000
        { fromSq := "e2", toSq := "e4", promotion := none }).2 = [Emit.broadcast] ∧
    (if gFlag10.clock.active = Color.w then
        (moveHandler engStub gFlag10 (some "wtA") 65000
          { fromSq := "e2", toSq := "e4", promotion := none }).1.clock.whiteMs
      else
        (moveHandler engStub gFlag10 (some "wtA") 65000
          { fromSq := "e2", toSq := "e4", promotion := none }).1.clock.blackMs)
      = (if gFlag10.clock.active = Color.w then gFlag10.clock.whiteMs
          else gFlag10.clock.blackMs) - (65000 - 0) :=
  c10_pre_move_timeout engStub gFlag10 (some "wtA") 65000 0
    { fromSq := "e2", toSq := "e4", promotion := none }
    rfl (by decide) (by decide) rfl rfl (by decide) (by decide)

/-! The gameplay handlers never touch the escrow link, and the escrow
endpoints never clear a stored matchId. -/

theorem applyMoveResult_pep (eng : Engine) (g : Game) (now : Int) (req : MoveReq)
    (seat : Seat) : (applyMoveResult eng g now req seat).1.pep = g.pep := by
  unfold applyMoveResult
  repeat' split
  all_goals simp [endIfGameOver_pep, switchClock_pep]

theorem moveAfterTick_pep (eng : Engine) (g2 : Game) (now : Int) (req : MoveReq)
    (seat : Seat) : (moveAfterTick eng g2 now req seat).1.pep = g2.pep := by
  unfold moveAfterTick
  split
  · rfl
  · exact applyMoveResult_pep eng g2 now req seat

theorem moveHandler_pep (eng : Engine) (g : Game) (tok : Option String) (now : Int)
    (req : MoveReq) : (moveHandler eng g tok now req).1.pep = g.pep := by
  unfold moveHandler
  repeat' split
  all_goals try rfl
  all_goals rw [moveAfterTick_pep, tickClock_pep]
  all_goals try exact startClockIfReady_pep g now

theorem offerDraw_pep (g : Game) (tok : Option String) :
    (offerDraw g tok).1.pep = g.pep := by
  unfold offerDraw
  repeat' split
  all_goals rfl

theorem acceptDraw_pep (g : Game) (tok : Option String) :
    (acceptDraw g tok).1.pep = g.pep := by
  unfold acceptDraw pauseClock
  repeat' split
  all_goals rfl

theorem declineDraw_pep (g : Game) (tok : Option String) :
    (declineDraw g tok).1.pep = g.pep := by
  unfold declineDraw
  repeat' split
  all_goals rfl

theorem resignHandler_pep (g : Game) (tok : Option String) :
    (resignHandler g tok).1.pep = g.pep := by
  unfold resignHandler pauseClock
  repeat' split
  all_goals rfl

theorem sweepStep_pep (g : Game) (now : Int) : (sweepStep g now).pep = g.pep := by
  unfold sweepStep
  repeat' split
  all_goals first | rfl | exact tickClock_pep g now

theorem joinGame_pep (g : Game) (tok : Option String) (fresh : String) :
    (joinGame g tok fresh).game.pep = g.pep := by
  unfold joinGame
  repeat' split
  all_goals rfl

theorem disconnectHandler_pep (g : Game) (s : Seat) :
    (disconnectHandler g s).1.pep = g.pep := by
  unfold disconnectHandler
  cases s
  all_goals rfl

theorem setPepInfo_matchId (g : Game) (tok : Option String) (s : Option Int)
    (a : Option (Option String)) :
    (setPepInfo g tok s a).1.pep.matchId = g.pep.matchId := by
  unfold setPepInfo pepWithAddress pepWithStake addrNorm
  repeat' split
  all_goals rfl

theorem pepAbort_matchId (g : Game) (tok : Option String) (oc : AbortOutcome) :
    (pepAbort g tok oc).game.pep.matchId = g.pep.matchId := by
  unfold pepAbort pauseClock
  repeat' split
  all_goals rfl

theorem pepCreate_frozen_once_created (g : Game) (tok : Option String)
    (oc : RemoteOutcome) (h : strTruthy g.pep.matchId = true) :
    (pepCreate g tok oc).game = g := by
  unfold pepCreate
  repeat' split
  all_goals first | rfl | simp_all

/-- Once a truthy matchId is stored, no operation of the server changes it. -/
theorem step_matchId_frozen (eng : Engine) (g : Game) (op : Op)
    (h : strTruthy g.pep.matchId = true) :
    (step eng g op).pep.matchId = g.pep.matchId := by
  cases op with
  | moveMsg t now req => exact congrArg Pep.matchId (moveHandler_pep eng g t now req)
  | offerDrawMsg t => exact congrArg Pep.matchId (offerDraw_pep g t)
  | acceptDrawMsg t => exact congrArg Pep.matchId (acceptDraw_pep g t)
  | declineDrawMsg t => exact congrArg Pep.matchId (declineDraw_pep g t)
  | resignMsg t => exact congrArg Pep.matchId (resignHandler_pep g t)
  | sweep now => exact congrArg Pep.matchId (sweepStep_pep g now)
  | joinHttp fresh =>
    show (match httpJoin g fresh with
      | Except.ok g1 => g1
      | Except.error _ => g).pep.matchId = g.pep.matchId
    unfold httpJoin
    split
    · rename_i g1 heq
      split at heq
      · exact Except.noConfusion heq
      · cases heq
        rfl
    · rfl
  | joinSocket t fresh => exact congrArg Pep.matchId (joinGame_pep g t fresh)
  | setInfo t s a => exact setPepInfo_matchId g t s a
  | createPep t oc =>
    show (pepCreate g t oc).game.pep.matchId = g.pep.matchId
    rw [pepCreate_frozen_once_created g t oc h]
  | abortPep t oc => exact pepAbort_matchId g t oc
  | disconnect s => exact congrArg Pep.matchId (disconnectHandler_pep g s)

/-- A fully serialized create (no interleaving) is the composition of the
two halves: a phase-1 rejection is the handler's whole answer. -/
theorem pepCreate_eq_reject (g : Game) (tok : Option String) (oc : RemoteOutcome)
    (st : Nat) (err : String)
    (h : pepCreatePhase1 g tok = CreatePhase1.reject st err) :
    pepCreate g tok oc =
      { game := g, httpStatus := st, ok := false, remoteCalled := false
        err := some err, emits := [] } := by
  unfold pepCreatePhase1 at h
  unfold pepCreate
  repeat' split
  all_goals simp_all

/-- A fully serialized create that passes phase 1 behaves exactly as the
post-await continuation applied to the unchanged guard-time state. -/
theorem pepCreate_eq_resume (g : Game) (tok : Option String) (oc : RemoteOutcome)
    (s : Option Int) (wa ba : Option String)
    (h : pepCreatePhase1 g tok = CreatePhase1.fetchIssued s wa ba) :
    pepCreate g tok oc = pepCreateResume g oc := by
  unfold pepCreatePhase1 at h
  unfold pepCreate pepCreateResume
  repeat' split
  all_goals simp_all

/-- Session ready for escrow creation: seated players, positive stake and
both addresses stored. -/
def gReady1 : Game :=
  { newGame "game1" "wt1" with
    tokensBlack := some "bt1"
    status := Status.playing
    pep :=
      { stake := some 100, whiteAddress := some "walletW1",
        blackAddress := some "walletB1", matchId := none, whiteEscrow := none,
        blackEscrow := none, status := none, error := none } }

/-- C1: evaluation at the failing schedule. The handler is async and its
matchId guard is checked before `await _fetch` while the matchId write
happens only after it, with no re-check. On a session ready for creation,
white's request runs its guard phase and issues the fetch; while that
fetch is outstanding, black's concurrent request runs its own guard phase
against the still-unchanged session, also passes (matchId is still null),
and issues a second fetch — two remote matches get created. When the two
responses land, the first continuation stores matchId "m1" and the second
continuation is not rejected: it succeeds and overwrites the stored
matchId with "m2", contradicting both the at-most-one-remote-match
consequent and the matchId-immutability invariant. -/
theorem c1_concurrent_double_create :
    pepCreatePhase1 gReady1 (some "wt1") =
      CreatePhase1.fetchIssued (some 100) (some "walletW1") (some "walletB1") ∧
    pepCreatePhase1 gReady1 (some "bt1") =
      CreatePhase1.fetchIssued (some 100) (some "walletW1") (some "walletB1") ∧
    (pepCreateResume gReady1
        (RemoteOutcome.ok
          { matchId := some "m1", whiteEscrow := some "escW1",
            blackEscrow := some "escB1", status := some "created" })).game.pep.matchId
      = some "m1" ∧
    (pepCreateResume
        (pepCreateResume gReady1
          (RemoteOutcome.ok
            { matchId := some "m1", whiteEscrow := some "escW1",
              blackEscrow := some "escB1", status := some "created" })).game
        (RemoteOutcome.ok
          { matchId := some "m2", whiteEscrow := some "escW2",
            blackEscrow := some "escB2", status := some "created" })).ok = true ∧
    (pepCreateResume
        (pepCreateResume gReady1
          (RemoteOutcome.ok
            { matchId := some "m1", whiteEscrow := some "escW1",
              blackEscrow := some "escB1", status := some "created" })).game
        (RemoteOutcome.ok
          { matchId := some "m2", whiteEscrow := some "escW2",
            blackEscrow := some "escB2", status := some "created" })).game.pep.matchId
      = some "m2" := by
  refine ⟨by decide, by decide, by decide, by decide, by decide⟩

/-! Draw-offer counter lemmas: only `offer_draw` ever touches
`drawOfferCount`, and it only increments the caller's entry while it is
below 3. -/

theorem applyMoveResult_dc (eng : Engine) (g : Game) (now : Int) (req : MoveReq)
    (seat : Seat) :
    (applyMoveResult eng g now req seat).1.drawOfferCount = g.drawOfferCount := by
  unfold applyMoveResult
  repeat' split
  all_goals simp [endIfGameOver_dc, switchClock_dc]

theorem moveAfterTick_dc (eng : Engine) (g2 : Game) (now : Int) (req : MoveReq)
    (seat : Seat) :
    (moveAfterTick eng g2 now req seat).1.drawOfferCount = g2.drawOfferCount := by
  unfold moveAfterTick
  split
  · rfl
  · exact applyMoveResult_dc eng g2 now req seat

theorem moveHandler_dc (eng : Engine) (g : Game) (tok : Option String) (now : Int)
    (req : MoveReq) :
    (moveHandler eng g tok now req).1.drawOfferCount = g.drawOfferCount := by
  unfold moveHandler
  repeat' split
  all_goals try rfl
  all_goals rw [moveAfterTick_dc, tickClock_dc]
  all_goals try exact startClockIfReady_dc g now

theorem acceptDraw_dc (g : Game) (tok : Option String) :
    (acceptDraw g tok).1.drawOfferCount = g.drawOfferCount := by
  unfold acceptDraw pauseClock
  repeat' split
  all_goals rfl

theorem declineDraw_dc (g : Game) (tok : Option String) :
    (declineDraw g tok).1.drawOfferCount = g.drawOfferCount := by
  unfold declineDraw
  repeat' split
  all_goals rfl

theorem resignHandler_dc (g : Game) (tok : Option String) :
    (resignHandler g tok).1.drawOfferCount = g.drawOfferCount := by
  unfold resignHandler pauseClock
  repeat' split
  all_goals rfl

theorem sweepStep_dc (g : Game) (now : Int) :
    (sweepStep g now).drawOfferCount = g.drawOfferCount := by
  unfold sweepStep
  repeat' split
  all_goals first | rfl | exact tickClock_dc g now

theorem joinGame_dc (g : Game) (tok : Option String) (fresh : String) :
    (joinGame g tok fresh).game.drawOfferCount = g.drawOfferCount := by
  unfold joinGame
  repeat' split
  all_goals rfl

theorem setPepInfo_dc (g : Game) (tok : Option String) (s : Option Int)
    (a : Option (Option String)) :
    (setPepInfo g tok s a).1.drawOfferCount = g.drawOfferCount := by
  unfold setPepInfo
  repeat' split
  all_goals rfl

theorem pepCreate_dc (g : Game) (tok : Option String) (oc : RemoteOutcome) :
    (pepCreate g tok oc).game.drawOfferCount = g.drawOfferCount := by
  unfold pepCreate
  repeat' split
  all_goals rfl

theorem pepAbort_dc (g : Game) (tok : Option String) (oc : AbortOutcome) :
    (pepAbort g tok oc).game.drawOfferCount = g.drawOfferCount := by
  unfold pepAbort pauseClock
  repeat' split
  all_goals rfl

theorem disconnectHandler_dc (g : Game) (s : Seat) :
    (disconnectHandler g s).1.drawOfferCount = g.drawOfferCount := by
  unfold disconnectHandler
  cases s
  all_goals rfl

theorem dget_congr {g1 g2 : Game}
    (h : g1.drawOfferCount = g2.drawOfferCount) (s : Seat) :
    dget g1 s = dget g2 s := by
  cases s
  all_goals simp [dget, h]

theorem offerDraw_dget_le (g : Game) (tok : Option String) (s : Seat) :
    dget g s ≤ dget (offerDraw g tok).1 s := by
  unfold offerDraw
  repeat' split
  all_goals cases s <;> simp [dget] <;> omega

theorem step_dget_le (eng : Engine) (g : Game) (op : Op) (s : Seat) :
    dget g s ≤ dget (step eng g op) s := by
  cases op with
  | moveMsg t now req =>
    exact le_of_eq (dget_congr (moveHandler_dc eng g t now req) s).symm
  | offerDrawMsg t => exact offerDraw_dget_le g t s
  | acceptDrawMsg t => exact le_of_eq (dget_congr (acceptDraw_dc g t) s).symm
  | declineDrawMsg t => exact le_of_eq (dget_congr (declineDraw_dc g t) s).symm
  | resignMsg t => exact le_of_eq (dget_congr (resignHandler_dc g t) s).symm
  | sweep now => exact le_of_eq (dget_congr (sweepStep_dc g now) s).symm
  | joinHttp fresh =>
    show dget g s ≤ dget (match httpJoin g fresh with
      | Except.ok g1 => g1
      | Except.error _ => g) s
    unfold httpJoin
    split
    · rename_i g1 heq
      split at heq
      · exact Except.noConfusion heq
      · cases heq
        cases s
        all_goals simp [dget]
    · exact le_refl _
  | joinSocket t fresh => exact le_of_eq (dget_congr (joinGame_dc g t fresh) s).symm
  | setInfo t st a => exact le_of_eq (dget_congr (setPepInfo_dc g t st a) s).symm
  | createPep t oc => exact le_of_eq (dget_congr (pepCreate_dc g t oc) s).symm
  | abortPep t oc => exact le_of_eq (dget_congr (pepAbort_dc g t oc) s).symm
  | disconnect sd => exact le_of_eq (dget_congr (disconnectHandler_dc g sd) s).symm

theorem offerDraw_dc_bounded (g : Game) (tok : Option String)
    (h : g.drawOfferCount.white ≤ 3 ∧ g.drawOfferCount.black ≤ 3) :
    (offerDraw g tok).1.drawOfferCount.white ≤ 3 ∧
      (offerDraw g tok).1.drawOfferCount.black ≤ 3 := by
  unfold offerDraw
  repeat' split
  all_goals simp_all
  all_goals omega

theorem step_dc_bounded (eng : Engine) (g : Game) (op : Op)
    (h : g.drawOfferCount.white ≤ 3 ∧ g.drawOfferCount.black ≤ 3) :
    (step eng g op).drawOfferCount.white ≤ 3 ∧
      (step eng g op).drawOfferCount.black ≤ 3 := by
  cases op with
  | moveMsg t now req => rw [step, moveHandler_dc]; exact h
  | offerDrawMsg t => exact offerDraw_dc_bounded g t h
  | acceptDrawMsg t => rw [step, acceptDraw_dc]; exact h
  | declineDrawMsg t => rw [step, declineDraw_dc]; exact h
  | resignMsg t => rw [step, resignHandler_dc]; exact h
  | sweep now => rw [step, sweepStep_dc]; exact h
  | joinHttp fresh =>
    show (match httpJoin g fresh with
        | Except.ok g1 => g1
        | Except.error _ => g).drawOfferCount.white ≤ 3 ∧
      (match httpJoin g fresh with
        | Except.ok g1 => g1
        | Except.error _ => g).drawOfferCount.black ≤ 3
    unfold httpJoin
    split
    · rename_i g1 heq
      split at heq
      · exact Except.noConfusion heq
      · cases heq
        exact h
    · exact h
  | joinSocket t fresh => rw [step, joinGame_dc]; exact h
  | setInfo t st a => rw [step, setPepInfo_dc]; exact h
  | createPep t oc => rw [step, pepCreate_dc]; exact h
  | abortPep t oc => rw [step, pepAbort_dc]; exact h
  | disconnect sd => rw [step, disconnectHandler_dc]; exact h

theorem foldl_dc_bounded (eng : Engine) (ops : List Op) (g : Game)
    (h : g.drawOfferCount.white ≤ 3 ∧ g.drawOfferCount.black ≤ 3) :
    (List.foldl (step eng) g ops).drawOfferCount.white ≤ 3 ∧
      (List.foldl (step eng) g ops).drawOfferCount.black ≤ 3 := by
  induction ops generalizing g with
  | nil => exact h
  | cons op rest ih => exact ih (step eng g op) (step_dc_bounded eng g op h)

theorem moveHandler_clears_offer (eng : Engine) (g : Game) (tok : Option String)
    (now : Int) (req : MoveReq) :
    (moveHandler eng g tok now req).1.moves ≠ g.moves →
    (moveHandler eng g tok now req).1.drawOffer = none := by
  unfold moveHandler moveAfterTick applyMoveResult
  repeat' split
  all_goals intro hne
  all_goals first
    | exact (hne rfl).elim
    | exact (hne ((tickClock_moves _ _).trans (startClockIfReady_moves _ _))).elim
    | exact (hne (tickClock_moves _ _)).elim
    | simp [endIfGameOver_drawOffer, switchClock_drawOffer]

/-- C7: the per-seat draw-offer counter never decreases under any server
operation and never exceeds 3 on any session reachable from creation; once
a seated caller's counter has reached 3, a further offer_draw in a playing
session is rejected with the cap error and the session (drawOffer included)
is unchanged; no operation resets the counter — in particular a move never
changes it, even though a successful move silently clears a pending
drawOffer. -/
theorem c7_draw_offer_counter (eng : Engine) :
    (∀ g op s, dget g s ≤ dget (step eng g op) s) ∧
    (∀ id wtok ops s,
      dget (List.foldl (step eng) (newGame id wtok) ops) s ≤ 3) ∧
    (∀ g tok, g.status = Status.playing → seatFromToken g tok ≠ Seat.spectator →
      3 ≤ dget g (seatFromToken g tok) →
      offerDraw g tok =
        (g, [Emit.errorMsg "You can only offer draw 3 times per game."])) ∧
    (∀ g tok now req s, dget ((moveHandler eng g tok now req).1) s = dget g s) ∧
    (∀ g tok now req, (moveHandler eng g tok now req).1.moves ≠ g.moves →
      (moveHandler eng g tok now req).1.drawOffer = none) := by
  refine ⟨fun g op s => step_dget_le eng g op s, ?_, ?_, ?_, ?_⟩
  · intro id wtok ops s
    have hb := foldl_dc_bounded eng ops (newGame id wtok)
      ⟨by show (0 : Nat) ≤ 3; decide, by show (0 : Nat) ≤ 3; decide⟩
    cases s
    · exact hb.1
    · exact hb.2
    · show 0 ≤ 3
      omega
  · intro g tok hp hseat hge
    have hnotseat :
        ¬ (seatFromToken g tok ≠ Seat.white ∧ seatFromToken g tok ≠ Seat.black) := by
      rcases seated_cases g tok hseat with hw | hb
      · exact fun hc => hc.1 hw
      · exact fun hc => hc.2 hb
    unfold offerDraw
    rw [if_neg hnotseat]
    rw [if_neg (fun hc => hc hp)]
    rcases seated_cases g tok hseat with hw | hb
    · rw [hw] at hge ⊢
      rw [if_pos rfl]
      rw [if_pos (show g.drawOfferCount.white ≥ 3 from hge)]
    · rw [hb] at hge ⊢
      rw [if_neg (fun hc => Seat.noConfusion hc)]
      rw [if_pos (show g.drawOfferCount.black ≥ 3 from hge)]
  · intro g tok now req s
    exact dget_congr (moveHandler_dc eng g tok now req) s
  · intro g tok now req
    exact moveHandler_clears_offer eng g tok now req

/-- Playing session where white has already offered three draws. -/
def gCap7 : Game :=
  { newGame "game7" "wt7" with
    tokensBlack := some "bt7"
    status := Status.playing
    drawOfferCount := { white := 3, black := 1 } }

/-- Witness for C7: on a concrete session with white's counter at 3, the
4th offer is rejected with the cap error and nothing changes; the counter
also stays bounded along a concrete operation sequence. -/
theorem c7_draw_offer_counter_witness :
    offerDraw gCap7 (some "wt7") =
      (gCap7, [Emit.errorMsg "You can only offer draw 3 times per game."]) ∧
    dget gCap7 Seat.white ≤
      dget (step engStub gCap7 (Op.offerDrawMsg (some "wt7"))) Seat.white ∧
    dget (List.foldl (step engStub) (newGame "g7f" "w7f")
      [Op.joinHttp "b7f", Op.offerDrawMsg (some "w7f"),
       Op.offerDrawMsg (some "w7f"), Op.offerDrawMsg (some "w7f"),
       Op.offerDrawMsg (some "w7f")]) Seat.white ≤ 3 :=
  ⟨(c7_draw_offer_counter engStub).2.2.1 gCap7 (some "wt7") rfl (by decide)
      (by decide),
   (c7_draw_offer_counter engStub).1 gCap7 (Op.offerDrawMsg (some "wt7")) Seat.white,
   (c7_draw_offer_counter engStub).2.1 "g7f" "w7f"
     [Op.joinHttp "b7f", Op.offerDrawMsg (some "w7f"),
      Op.offerDrawMsg (some "w7f"), Op.offerDrawMsg (some "w7f"),
      Op.offerDrawMsg (some "w7f")] Seat.white⟩

/-- Session ready for escrow creation, used for the C8 failure-path
analysis. -/
def gReady8 : Game :=
  { newGame "game8" "wt8" with
    tokensBlack := some "bt8"
    status := Status.playing
    pep :=
      { stake := some 100, whiteAddress := some "walletW8",
        blackAddress := some "walletB8", matchId := none, whiteEscrow := none,
        blackEscrow := none, status := none, error := none } }

/-- C8 counterexample: an escrow-create call that reaches the remote
service and is rejected by it (`!r.ok`) is a failed create, yet the server
records nothing in escrow.error (it stays none), broadcasts nothing, and
only returns the error to the HTTP caller — refuting the claim that every
failed call is recorded in escrow.error and broadcast to the room. -/
theorem c8_remote_reject_silent_cex :
    (pepCreate gReady8 (some "wt8") RemoteOutcome.notOk).remoteCalled = true ∧
    (pepCreate gReady8 (some "wt8") RemoteOutcome.notOk).game = gReady8 ∧
    (pepCreate gReady8 (some "wt8") RemoteOutcome.notOk).game.pep.error = none ∧
    (pepCreate gReady8 (some "wt8") RemoteOutcome.notOk).emits = [] := by
  refine ⟨by decide, by decide, by decide, by decide⟩

/-- C8 (amended): when the escrow-create remote call throws (service
unreachable), "pep create failed" is stored in escrow.error, the state is
broadcast to the whole room, and every other field — matchId included — is
unchanged, so the call is retryable; when the remote service responds but
rejects, the error goes only to the HTTP caller: the session is entirely
unchanged (escrow.error not set) and nothing is broadcast, so that call too
is retryable. -/
theorem c8_failure_paths (g : Game) (tok : Option String) :
    ((pepCreate g tok RemoteOutcome.threw).remoteCalled = true →
      (pepCreate g tok RemoteOutcome.threw).game =
        { g with pep := { g.pep with error := some "pep create failed" } } ∧
      (pepCreate g tok RemoteOutcome.threw).emits = [Emit.broadcast] ∧
      (pepCreate g tok RemoteOutcome.threw).game.pep.matchId = g.pep.matchId) ∧
    ((pepCreate g tok RemoteOutcome.notOk).remoteCalled = true →
      (pepCreate g tok RemoteOutcome.notOk).game = g ∧
      (pepCreate g tok RemoteOutcome.notOk).emits = []) := by
  constructor
  · intro hcall
    unfold pepCreate at hcall ⊢
    repeat' split
    all_goals first | exact ⟨rfl, rfl, rfl⟩ | simp_all
  · intro hcall
    unfold pepCreate at hcall ⊢
    repeat' split
    all_goals first | exact ⟨rfl, rfl⟩ | simp_all

/-- Witness for the amended C8 at a concrete ready session. -/
theorem c8_failure_paths_witness :
    (pepCreate gReady8 (some "bt8") RemoteOutcome.threw).game =
      { gReady8 with pep := { gReady8.pep with error := some "pep create failed" } } ∧
    (pepCreate gReady8 (some "bt8") RemoteOutcome.threw).emits = [Emit.broadcast] ∧
    (pepCreate gReady8 (some "bt8") RemoteOutcome.notOk).game = gReady8 ∧
    (pepCreate gReady8 (some "bt8") RemoteOutcome.notOk).emits = [] :=
  ⟨((c8_failure_paths gReady8 (some "bt8")).1 (by decide)).1,
   ((c8_failure_paths gReady8 (some "bt8")).1 (by decide)).2.1,
   ((c8_failure_paths gReady8 (some "bt8")).2 (by decide)).1,
   ((c8_failure_paths gReady8 (some "bt8")).2 (by decide)).2⟩

end PepChess
